import Mathlib

/-!
Verification of the Raiden scenario-player performance-analysis tool
(`analysis.py`, `prometheus.py`) against its natural-language specification.

The development shallowly embeds the Python source.  JSON values are the
inductive `JVal`; Python dicts are association lists; machine floats are
modelled as exact rationals; fallible Python code (KeyError, IndexError,
TypeError, UnboundLocalError) returns `Except PyErr`.  External library
calls (yaml.safe_load, json.dumps, datetime arithmetic, the compiled
inclusion regex, float formatting) are passed in as explicit function
parameters: the surrounding control flow is translated from the source.
-/

namespace RaidenAnalysis

/-- Model of a Python/JSON value as produced by `json.loads`. -/
inductive JVal where
  | s (v : String)
  | i (v : Int)
  | f (v : ℚ)
  | b (v : Bool)
  | null
  | arr (v : List JVal)
  | obj (v : List (String × JVal))

/-- Python exceptions that the embedded code can raise. -/
inductive PyErr where
  | keyError (k : String)
  | unboundLocal (n : String)
  | indexError
  | typeError (msg : String)
deriving DecidableEq

/-- Dictionary lookup (`d[k]` / `k in d` support): first matching key. -/
def alookup {α : Type} : List (String × α) → String → Option α
  | [], _ => none
  | (k, v) :: rest, key => if k = key then some v else alookup rest key

/-- Python `key in dict`. -/
def hasKey {α : Type} (m : List (String × α)) (k : String) : Bool :=
  (alookup m k).isSome

/-- Python `d[k] = v`: update in place, or append a fresh key. -/
def jset : List (String × JVal) → String → JVal → List (String × JVal)
  | [], k, v => [(k, v)]
  | (k0, v0) :: rest, k, v =>
    if k0 = k then (k, v) :: rest else (k0, v0) :: jset rest k v

/-- Python `str()`.  The rendering of composite values (lists/dicts) and the
decimal formatting of floats are abstracted (no claim depends on them);
scalars are rendered faithfully enough for the claims at hand. -/
def pyStr : JVal → String
  | .s v => v
  | .i v => toString v
  | .f v => toString v
  | .b true => "True"
  | .b false => "False"
  | .null => "None"
  | .arr _ => "[...]"
  | .obj _ => "\x7b...\x7d"

/-- Does the character list start with the pattern? -/
def starts_with_chars : List Char → List Char → Bool
  | [], _ => true
  | _ :: _, [] => false
  | p :: ps, h :: hs => p = h && starts_with_chars ps hs

/-- Does the character list contain the pattern as a contiguous run? -/
def chars_contain (hay pat : List Char) : Bool :=
  match hay with
  | [] => pat.isEmpty
  | _ :: rest => starts_with_chars pat hay || chars_contain rest pat

/-- Python `pat in s` substring test. -/
def strContains (s pat : String) : Bool :=
  chars_contain s.data pat.data

/-- Characters of the reversed input up to (excluding) the first `c`. -/
def take_until (c : Char) : List Char → List Char
  | [] => []
  | x :: xs => if x = c then [] else x :: take_until c xs

/-- Python `s.rsplit("/", 1)[-1]`: the suffix after the last slash. -/
def path_basename (s : String) : String :=
  String.mk ((take_until '/' s.data.reverse).reverse)

/-- Remove every occurrence of one character (Python
`s.replace("<", "")` / `s.replace(">", "")`). -/
def remove_char (c : Char) : List Char → List Char
  | [] => []
  | x :: xs => if x = c then remove_char c xs else x :: remove_char c xs

/-- `s.replace(c, "")` for a single-character pattern. -/
def str_remove (s : String) (c : Char) : String :=
  String.mk (remove_char c s.data)

/-- ASCII whitespace, as stripped by Python `str.strip()`. -/
def is_space (c : Char) : Bool :=
  c = ' ' || c = '\t' || c = '\n' || c = '\r'

/-- Drop leading whitespace from a character list. -/
def drop_leading : List Char → List Char
  | [] => []
  | c :: cs => if is_space c then drop_leading cs else c :: cs

/-- Python `s.strip()`. -/
def str_strip (s : String) : String :=
  String.mk ((drop_leading ((drop_leading s.data).reverse)).reverse)

/-- `Content` named tuple from analysis.py: `(timestamp, event, json)`. -/
structure Content where
  timestamp : JVal
  event : JVal
  json : List (String × JVal)

/-- `CSVRow` named tuple from analysis.py: `(num, task_type, duration,
nodes_involved)`.  `num` keeps the Python value: the enumerate index is an
int, but an explicit `id` payload field replaces it verbatim. -/
structure CSVRow where
  num : JVal
  task_type : String
  duration : JVal
  nodes_involved : Nat

/-- One entry of `gantt_rows` ("Task"/"Start"/"Finish"/"Description"). -/
structure GanttRow where
  task : String
  start : String
  finish : JVal
  description : String

/-- One entry of `table_rows` ("id"/"type"/"duration"/"description"). -/
structure TableRow where
  id : JVal
  ty : String
  duration : JVal
  description : String

/-- The `filled_rows` dictionary (keys "gantt_rows", "csv_rows",
"table_rows"). -/
structure FilledRows where
  gantt_rows : List GanttRow
  csv_rows : List CSVRow
  table_rows : List TableRow

/-- A raw input log line: its text `raw` plus `parsed = json.loads raw`.
The pair is the input interface of `read_raw_content`; the JSON parser
itself is an external library. -/
structure Line where
  raw : String
  parsed : List (String × JVal)

/-! ## Sorting (Python `list.sort` / `sorted`, stable ascending) -/

/-- Insert into a sorted list, after any element it does not strictly
precede (keeps stability). -/
def insert_sorted {α : Type} (lt : α → α → Bool) (a : α) : List α → List α
  | [] => [a]
  | b :: bs => if lt a b then a :: b :: bs else b :: insert_sorted lt a bs

/-- Stable insertion sort, ascending w.r.t. the strict order `lt`. -/
def stable_sort {α : Type} (lt : α → α → Bool) (l : List α) : List α :=
  l.foldl (fun acc a => insert_sorted lt a acc) []

/-- Strict comparison of Python scalar values; comparison across different
types (which CPython would reject with a TypeError) is modelled by a fixed
constructor rank — no claim exercises mixed-type timestamps. -/
def jlt (a b : JVal) : Bool :=
  match a, b with
  | .s x, .s y => decide (x < y)
  | .i x, .i y => decide (x < y)
  | .f x, .f y => decide (x < y)
  | .b x, .b y => !x && y
  | .s _, _ => false
  | _, .s _ => true
  | .i _, _ => false
  | _, .i _ => true
  | .f _, _ => false
  | _, .f _ => true
  | .b _, _ => false
  | _, .b _ => true
  | _, _ => false

/-! ## Raw Log Reader (`read_raw_content`, analysis.py lines 106-128) -/

/-- The loop body of `read_raw_content`: walks the lines carrying the
current value of the `run_number` local (`none` = still unbound).
`if "run_number" in row` is a **substring** test on the raw line text;
the marker branch then does `json.loads(row)["run_number"]` (KeyError if
the parsed payload lacks the key) and `continue`s.  Other lines are kept
as `Content(x["timestamp"], x["event"], x)` when `"runtime" in x` (a key
test on the parsed dict). -/
def read_lines : List Line → Option JVal → Except PyErr (List Content × Option JVal)
  | [], rn => .ok ([], rn)
  | l :: ls, rn =>
    if strContains l.raw "run_number" then
      match alookup l.parsed "run_number" with
      | none => .error (.keyError "run_number")
      | some v => read_lines ls (some v)
    else if hasKey l.parsed "runtime" then
      match alookup l.parsed "timestamp" with
      | none => .error (.keyError "timestamp")
      | some ts =>
        match alookup l.parsed "event" with
        | none => .error (.keyError "event")
        | some ev =>
          match read_lines ls rn with
          | .error e => .error e
          | .ok (evs, rn2) => .ok (⟨ts, ev, l.parsed⟩ :: evs, rn2)
    else read_lines ls rn

/-- `read_raw_content` (analysis.py 106-128): collect events, sort them by
timestamp (`sort(key=lambda e: e[0])`), and return them together with
`str(run_number)`.  If no line ever assigned `run_number`, the final read
of the local raises `UnboundLocalError`. -/
def read_raw_content (content : List Line) : Except PyErr (List Content × String) :=
  match read_lines content none with
  | .error e => .error e
  | .ok (evs, rn) =>
    let sorted := stable_sort (fun a b => jlt a.timestamp b.timestamp) evs
    match rn with
    | none => .error (.unboundLocal "run_number")
    | some v => .ok (sorted, pyStr v)

/-- Spec-side: the lines the loop treats as the `run_number` marker —
exactly those whose **raw text** contains the substring. -/
def marker_lines (content : List Line) : List Line :=
  content.filter (fun l => strContains l.raw "run_number")

/-- Spec-side: the lines retained as events — no marker substring, and a
`runtime` key in the parsed payload. -/
def event_lines (content : List Line) : List Line :=
  content.filter (fun l => !strContains l.raw "run_number" && hasKey l.parsed "runtime")

/-- Spec-side: the `Content` built from a retained line (junk on a line
whose payload lacks the `timestamp`/`event` keys — guarded by
well-formedness hypotheses wherever used). -/
def line_to_content (l : Line) : Content :=
  ⟨(alookup l.parsed "timestamp").getD .null, (alookup l.parsed "event").getD .null, l.parsed⟩

/-- Spec-side: the value of the `run_number` local after the read loop,
starting from `rn` (`none` = unbound): every marker line (substring
test!) overwrites it with its payload's `run_number` value. -/
def rn_after (content : List Line) (rn : Option JVal) : Option JVal :=
  content.foldl
    (fun acc l =>
      if strContains l.raw "run_number" then alookup l.parsed "run_number" else acc)
    rn

/-! ## Task Reconstructor (`fill_rows`, analysis.py lines 251-302) -/

/-- The result of `yaml.safe_load`: either a mapping (Python dict) or any
other value (scalar, null, list, ...). -/
inductive YVal where
  | mapping (m : List (String × JVal))
  | value (v : JVal)

/-- Split a character list at the first occurrence of `c`: `none` when
`c` does not occur. -/
def split_first_chars (c : Char) : List Char → Option (List Char × List Char)
  | [] => none
  | x :: xs =>
    if x = c then some ([], xs)
    else
      match split_first_chars c xs with
      | none => none
      | some (a, b) => some (x :: a, b)

/-- Python `s.split(":", 1)`: head part, and the rest after the first
`:` when one occurred. -/
def split_first (s : String) : String × Option String :=
  match split_first_chars ':' s.data with
  | none => (s, none)
  | some (a, b) => (String.mk a, some (String.mk b))

/-- `count_log_occurrences` (analysis.py 243-248): number of node-log
texts containing `key` as a substring. -/
def count_log_occurrences (key : String) (node_logs : List String) : Nat :=
  node_logs.foldl (fun acc logfile => if strContains logfile key then acc + 1 else acc) 0

/-- The node-involvement annotation (analysis.py 273-274):
`if nodes_involved: task_type = f"{task_type}({nodes_involved} node{nodes_involved > 1 and 's' or ''})"`.
The boolean-arithmetic idiom `n > 1 and 's' or ''` evaluates to `"s"` when
`n > 1` and `""` otherwise. -/
def annotate_task_type (task_type : String) (nodes_involved : Nat) : String :=
  if nodes_involved ≠ 0 then
    task_type ++ "(" ++ toString nodes_involved ++
      (" node" ++ (if 1 < nodes_involved then "s" else "") ++ ")")
  else task_type

/-- One iteration of the `fill_rows` loop (analysis.py 257-297) at
enumerate index `num`.  Returns `.ok none` when the parsed task body is
not a mapping (the `continue` for wait tasks), `.ok (some rows)` with the
gantt/table/csv rows otherwise, and a `PyErr` where Python would raise.
`safeLoad` stands for `yaml.safe_load`, `dumps` for
`json.dumps(..., sort_keys=True, indent=4).replace("\n", "<br>")`, and
`startOf` for the `datetime.strptime`, `timedelta`, `strftime` start-time
computation — all external libraries. -/
def process_event (safeLoad : String → YVal) (dumps : List (String × JVal) → String)
    (startOf : JVal → JVal → String) (node_logs : List String)
    (num : Nat) (task : Content) : Except PyErr (Option (GanttRow × TableRow × CSVRow)) :=
  match alookup task.json "task" with
  | none => .error (.keyError "task")
  | some tv =>
    match tv with
    | .s tstr =>
      match split_first tstr with
      | (_, none) => .error .indexError
      | (tb0, some tb1) =>
        let task_type := str_strip (str_remove tb0 '<')
        let task_desc := str_strip (str_remove tb1 '>')
        match safeLoad task_desc with
        | .value _ => .ok none
        | .mapping m =>
          match alookup task.json "runtime" with
          | none => .error (.keyError "runtime")
          | some duration =>
            let numv : JVal :=
              match alookup task.json "id" with
              | some v => v
              | none => .i num
            let nodes_involved : Nat :=
              match alookup m "identifier" with
              | some idv => count_log_occurrences (pyStr idv) node_logs
              | none => 0
            let task_type := annotate_task_type task_type nodes_involved
            let m2 := jset m "nodes_involved" (.i nodes_involved)
            let task_full_desc := dumps m2
            .ok (some
              (⟨task_type ++ ("(#" ++ pyStr numv ++ ")"),
                startOf task.timestamp duration, task.timestamp, task_full_desc⟩,
               ⟨numv, task_type, duration, task_full_desc⟩,
               ⟨numv, task_type, duration, nodes_involved⟩))
    | _ => .error (.typeError "task")

/-- The `for num, task in enumerate(content)` loop of `fill_rows`,
accumulating the three projections in input order. -/
def fill_rows_go (safeLoad : String → YVal) (dumps : List (String × JVal) → String)
    (startOf : JVal → JVal → String) (node_logs : List String) :
    Nat → List Content → Except PyErr (List GanttRow × List TableRow × List CSVRow)
  | _, [] => .ok ([], [], [])
  | num, t :: rest =>
    match process_event safeLoad dumps startOf node_logs num t with
    | .error e => .error e
    | .ok none => fill_rows_go safeLoad dumps startOf node_logs (num + 1) rest
    | .ok (some (g, tr, c)) =>
      match fill_rows_go safeLoad dumps startOf node_logs (num + 1) rest with
      | .error e => .error e
      | .ok (gs, ts, cs) => .ok (g :: gs, tr :: ts, c :: cs)

/-- `fill_rows` (analysis.py 251-302): the three projections packed into
the `filled_rows` dictionary. -/
def fill_rows (safeLoad : String → YVal) (dumps : List (String × JVal) → String)
    (startOf : JVal → JVal → String)
    (content : List Content) (node_logs : List String) : Except PyErr FilledRows :=
  match fill_rows_go safeLoad dumps startOf node_logs 0 content with
  | .error e => .error e
  | .ok (gs, ts, cs) => .ok ⟨gs, cs, ts⟩

/-- Spec-side: an event is retained exactly when its task descriptor
parses to a mapping. -/
def retained (safeLoad : String → YVal) (t : Content) : Bool :=
  match alookup t.json "task" with
  | some (.s tstr) =>
    match split_first tstr with
    | (_, some tb1) =>
      match safeLoad (str_strip (str_remove tb1 '>')) with
      | .mapping _ => true
      | .value _ => false
    | (_, none) => false
  | _ => false

/-- Spec-side well-formedness of an event: its `task` field is a string
containing a `:`, and — when the event is retained — the payload carries
a `runtime` key.  These are exactly the conditions under which the loop
body cannot raise. -/
def wf_event (safeLoad : String → YVal) (t : Content) : Bool :=
  (match alookup t.json "task" with
   | some (.s tstr) => (split_first tstr).2.isSome
   | _ => false) &&
  (!retained safeLoad t || hasKey t.json "runtime")

/-- Spec-side: the row triple produced for a retained, well-formed event
(junk otherwise). -/
def row_triple_of (safeLoad : String → YVal) (dumps : List (String × JVal) → String)
    (startOf : JVal → JVal → String) (node_logs : List String)
    (num : Nat) (t : Content) : GanttRow × TableRow × CSVRow :=
  match process_event safeLoad dumps startOf node_logs num t with
  | .ok (some x) => x
  | _ => (⟨"", "", .null, ""⟩, ⟨.null, "", .null, ""⟩, ⟨.null, "", .null, 0⟩)

/-- Spec-side: the rows of the three projections, one triple per
retained event, with the enumerate counter advancing over skipped events
too. -/
def spec_rows (safeLoad : String → YVal) (dumps : List (String × JVal) → String)
    (startOf : JVal → JVal → String) (node_logs : List String) :
    Nat → List Content → List (GanttRow × TableRow × CSVRow)
  | _, [] => []
  | num, t :: rest =>
    if retained safeLoad t then
      row_triple_of safeLoad dumps startOf node_logs num t ::
        spec_rows safeLoad dumps startOf node_logs (num + 1) rest
    else spec_rows safeLoad dumps startOf node_logs (num + 1) rest

/-! ## Statistics Aggregator (`generate_statistics`, analysis.py 172-191) -/

/-- One entry of the per-group result dict.  The source stores
`data.std()`; since a standard deviation is irrational in general, the
model stores its square `stdev_sq` (the population variance), and the
theorems characterize the standard deviation as the non-negative square
root of this field. -/
structure StatGroup where
  name : String
  raw_durations : List ℚ
  min : ℚ
  max : ℚ
  mean : ℚ
  median : ℚ
  p95 : ℚ
  stdev_sq : ℚ
  count : Nat
deriving DecidableEq

/-- A duration value coerced to a rational; `np.array` arithmetic over
non-numeric entries is modelled as a TypeError. -/
def toNum : JVal → Except PyErr ℚ
  | .i n => .ok (n : ℚ)
  | .f q => .ok q
  | .b bv => .ok (if bv then 1 else 0)
  | _ => .error (.typeError "duration")

/-- Collect the duration column of a group (`map(lambda r: r.duration, group)`). -/
def duration_rats : List CSVRow → Except PyErr (List ℚ)
  | [] => .ok []
  | r :: rest =>
    match toNum r.duration with
    | .error e => .error e
    | .ok d =>
      match duration_rats rest with
      | .error e => .error e
      | .ok ds => .ok (d :: ds)

/-- Python `itertools.groupby`: consecutive runs of equal keys. -/
def group_runs : List CSVRow → List (String × List CSVRow)
  | [] => []
  | r :: rs =>
    match group_runs rs with
    | [] => [(r.task_type, [r])]
    | (k, g) :: rest =>
      if r.task_type = k then (k, r :: g) :: rest
      else (r.task_type, [r]) :: (k, g) :: rest

/-- Sum of a list of rationals. -/
def qsum (l : List ℚ) : ℚ := l.foldl (· + ·) 0

/-- `np.ndarray.min` over a non-empty list, seeded with its head. -/
def qmin (x : ℚ) (xs : List ℚ) : ℚ := xs.foldl Min.min x

/-- `np.ndarray.max` over a non-empty list, seeded with its head. -/
def qmax (x : ℚ) (xs : List ℚ) : ℚ := xs.foldl Max.max x

/-- Ascending sort of rationals, used by `np.median` / `np.percentile`. -/
def qsorted (l : List ℚ) : List ℚ :=
  stable_sort (fun a b => decide (a < b)) l

/-- `np.mean`. -/
def np_mean (l : List ℚ) : ℚ := qsum l / (l.length : ℚ)

/-- `np.median`: middle element of the sorted data, or the mean of the
two middle elements for even length. -/
def np_median (l : List ℚ) : ℚ :=
  let s := qsorted l
  let n := s.length
  if n % 2 = 1 then s.getD (n / 2) 0
  else (s.getD (n / 2 - 1) 0 + s.getD (n / 2) 0) / 2

/-- `np.percentile(a, q)` with the default linear-interpolation method:
virtual index `h = q/100 * (n-1)` into the sorted data, interpolating
between the neighbouring elements. -/
def np_percentile (l : List ℚ) (q : ℚ) : ℚ :=
  let s := qsorted l
  let h : ℚ := q / 100 * ((s.length : ℚ) - 1)
  let i : Nat := h.floor.toNat
  let lo := s.getD i 0
  let hi := s.getD (i + 1) lo
  lo + (h - (i : ℚ)) * (hi - lo)

/-- The population variance `np.var`, i.e. the square of `np.std`. -/
def np_var (l : List ℚ) : ℚ :=
  np_mean (l.map (fun x => (x - np_mean l) ^ 2))

/-- The loop body of `generate_statistics` for one `groupby` group:
the per-group result dict. -/
def stat_of_group (key : String) (group : List CSVRow) : Except PyErr StatGroup :=
  match duration_rats group with
  | .error e => .error e
  | .ok durs =>
    match durs with
    | [] => .error .indexError
    | d :: ds =>
      .ok ⟨key, durs, qmin d ds, qmax d ds, np_mean durs, np_median durs,
           np_percentile durs 95, np_var durs, durs.length⟩

/-- Fold `stat_of_group` over all groups, in group order. -/
def stats_of_groups : List (String × List CSVRow) → Except PyErr (List StatGroup)
  | [] => .ok []
  | (k, g) :: rest =>
    match stat_of_group k g with
    | .error e => .error e
    | .ok sg =>
      match stats_of_groups rest with
      | .error e => .error e
      | .ok sgs => .ok (sg :: sgs)

/-- `generate_statistics` (analysis.py 172-191): sort the csv rows by
`task_type`, group consecutive equal types, and compute the descriptive
statistics of each group's durations. -/
def generate_statistics (filled_rows : FilledRows) : Except PyErr (List StatGroup) :=
  stats_of_groups
    (group_runs (stable_sort (fun a b => decide (a.task_type < b.task_type))
      filled_rows.csv_rows))

/-! ## CSV writer (`write_csv`, analysis.py 164-169) -/

/-- `csv_writer.writerow(r)` on a `CSVRow` named tuple iterates **all
four** of its fields, stringifying each. -/
def csv_record (r : CSVRow) : List String :=
  [pyStr r.num, r.task_type, pyStr r.duration, toString r.nodes_involved]

/-- The records written to `durations.csv` by `write_csv`: the fixed
three-column header, then one record per csv row. -/
def write_csv_records (filled_rows : FilledRows) : List (List String) :=
  ["Id", "Type", "Duration"] :: filled_rows.csv_rows.map csv_record

/-! ## Chat notification (`filter_report`, `json_list_to_md_table`,
`post_report`, analysis.py 42-90) -/

/-- `safe_format_number` (analysis.py 67-74).  `fmt` stands for the
external `f"{float(value):.04}"` conversion; `none` models the
`ValueError` that the source catches and swallows. -/
def safe_format_number (fmt : String → Option String) (value : String) : String :=
  if strContains value "." then
    match fmt value with
    | some r => r
    | none => value
  else value

/-- One markdown table data row: `"|".join(safe_format_number(entry[k]) for k in keys)`
(`entry[k]` raises KeyError when a key is missing). -/
def md_row (fmt : String → Option String) (keys : List String)
    (entry : List (String × String)) : Except PyErr String :=
  match keys with
  | [] => .ok ""
  | k :: ks =>
    match alookup entry k with
    | none => .error (.keyError k)
    | some v =>
      match md_row fmt ks entry with
      | .error e => .error e
      | .ok rest =>
        .ok (if ks = [] then safe_format_number fmt v
             else safe_format_number fmt v ++ "|" ++ rest)

/-- The data rows of the markdown table, in input order. -/
def md_rows (fmt : String → Option String) (keys : List String) :
    List (List (String × String)) → Except PyErr (List String)
  | [] => .ok []
  | e :: rest =>
    match md_row fmt keys e with
    | .error err => .error err
    | .ok rowtxt =>
      match md_rows fmt keys rest with
      | .error err => .error err
      | .ok more => .ok (rowtxt :: more)

/-- `json_list_to_md_table` (analysis.py 82-90): reads `data[0].keys()`
unconditionally — an IndexError on an empty list — then joins header,
separator and one row per entry with newlines. -/
def json_list_to_md_table (fmt : String → Option String)
    (data : List (List (String × String))) : Except PyErr String :=
  match data with
  | [] => .error .indexError
  | first :: _ =>
    let keys := first.map (fun p => p.1)
    match md_rows fmt keys data with
    | .error e => .error e
    | .ok rows =>
      .ok (String.intercalate "\n"
        (String.intercalate "|" keys ::
         String.intercalate "|" (keys.map (fun _ => "---")) :: rows))

/-- `filter_report` (analysis.py 42-56): keep the entries whose `name`
matches the compiled inclusion regex, here abstracted as the predicate
`matchF` (Python's `re.match`).  `e["name"]` raises KeyError when absent. -/
def filter_report (matchF : String → Bool) :
    List (List (String × String)) → Except PyErr (List (List (String × String)))
  | [] => .ok []
  | e :: rest =>
    match alookup e "name" with
    | none => .error (.keyError "name")
    | some nm =>
      match filter_report matchF rest with
      | .error err => .error err
      | .ok tail => .ok (if matchF nm then e :: tail else tail)

/-- `post_report` (analysis.py 59-64): build the message text (header
line plus markdown table over the filtered report) that is POSTed to the
chat hook.  The returned string is the message; the HTTP POST itself is
the external side effect. -/
def post_report (fmt : String → Option String) (matchF : String → Bool)
    (report : List (List (String × String))) (logfile : String) : Except PyErr String :=
  match filter_report matchF report with
  | .error e => .error e
  | .ok filtered =>
    match json_list_to_md_table fmt filtered with
    | .error e => .error e
    | .ok tbl => .ok ("###### Stats for " ++ path_basename logfile ++ "\n" ++ tbl)

/-- The `raw_stats` list built by `write_statistics` (analysis.py
194-216): every result field except `raw_durations` and `div`,
stringified.  The stringification of the stored squared deviation stands
in for the source's stringified standard deviation. -/
def write_statistics_raw (summary : List StatGroup) : List (List (String × String)) :=
  summary.map (fun g =>
    [("name", g.name), ("min", toString g.min), ("max", toString g.max),
     ("mean", toString g.mean), ("median", toString g.median),
     ("p95", toString g.p95), ("stdev", toString g.stdev_sq),
     ("count", toString g.count)])

/-! ## Metrics exporter call and `main` (analysis.py 317-351,
prometheus.py 7-36) -/

/-- The parameter count of `parse_filled_rows` (prometheus.py 7-12):
`filled_rows`, `scenario_name`, `client_versions`, `target_file` — four
parameters, none with a default. -/
def parse_filled_rows_param_count : Nat := 4

/-- The argument count of the call in `main` (analysis.py 341):
`parse_filled_rows(filled_rows, scenario_name, PROMETHEUS_NODE_EXPORTER_PATH)`. -/
def main_metrics_call_arg_count : Nat := 3

/-- Python call semantics for a function whose signature has no default
or variadic parameters: a call with the wrong number of positional
arguments raises TypeError before the body runs. -/
def py_call_check (fname : String) (param_count arg_count : Nat) : Except PyErr Unit :=
  if param_count = arg_count then .ok () else .error (.typeError fname)

/-- The observable outcome of one `main` run (the external side effects
it would perform). -/
inductive MainOutcome where
  | posted_empty (message : String)
  | completed (csv : List (List String)) (raw_stats : List (List (String × String)))
      (notification : String)

/-- The body of `main` (analysis.py 317-351) after configuration and
argument parsing: read the log, short-circuit empty runs to the
`post_empty` notification, reconstruct rows, call the metrics exporter
(with three arguments against a four-parameter signature), aggregate
statistics, and emit csv/statistics/notification. -/
def main_after_read (safeLoad : String → YVal) (dumps : List (String × JVal) → String)
    (startOf : JVal → JVal → String) (fmt : String → Option String)
    (matchF : String → Bool) (node_logs : List String) (logfile : String)
    (stripped_content : List Content) (run_number : String) : Except PyErr MainOutcome :=
  if stripped_content.isEmpty || run_number = "" then
    .ok (.posted_empty ("No output for " ++ path_basename logfile ++ "\n"))
  else
    match fill_rows safeLoad dumps startOf stripped_content node_logs with
    | .error e => .error e
    | .ok filled_rows =>
      match py_call_check "parse_filled_rows"
          parse_filled_rows_param_count main_metrics_call_arg_count with
      | .error e => .error e
      | .ok _ =>
        match generate_statistics filled_rows with
        | .error e => .error e
        | .ok summary =>
          let csv := write_csv_records filled_rows
          let raw_stats := write_statistics_raw summary
          match post_report fmt matchF raw_stats logfile with
          | .error e => .error e
          | .ok notification => .ok (.completed csv raw_stats notification)

/-- The body of `main` proper: read, then hand over to the rest of the
pipeline. -/
def main_run (safeLoad : String → YVal) (dumps : List (String × JVal) → String)
    (startOf : JVal → JVal → String) (fmt : String → Option String)
    (matchF : String → Bool) (lines : List Line) (node_logs : List String)
    (logfile : String) : Except PyErr MainOutcome :=
  match read_raw_content lines with
  | .error e => .error e
  | .ok (stripped_content, run_number) =>
    main_after_read safeLoad dumps startOf fmt matchF node_logs logfile
      stripped_content run_number

/-! ## Helper lemmas -/

/-- String append is associative (re-export shortcut used to normalize
concatenations built from f-string translations). -/
theorem str_append_assoc (a b c : String) : a ++ b ++ c = a ++ (b ++ c) :=
  String.append_assoc a b c

/-- Characterization of the read loop: when every marker line's payload
has the `run_number` key and every retained event line has `timestamp`
and `event` keys, `read_lines` returns exactly the non-marker
runtime-bearing lines as events, and the run-number local ends at
`rn_after`. -/
theorem read_lines_eq : ∀ (content : List Line) (rn : Option JVal),
    (∀ l ∈ content, strContains l.raw "run_number" = true →
      (alookup l.parsed "run_number").isSome) →
    (∀ l ∈ content, strContains l.raw "run_number" = false →
      hasKey l.parsed "runtime" = true →
      (alookup l.parsed "timestamp").isSome ∧ (alookup l.parsed "event").isSome) →
    read_lines content rn =
      .ok ((event_lines content).map line_to_content, rn_after content rn)
  | [], _, _, _ => rfl
  | l :: ls, rn, h1, h2 => by
    have h1s : ∀ x ∈ ls, strContains x.raw "run_number" = true →
        (alookup x.parsed "run_number").isSome :=
      fun x hx => h1 x (List.mem_cons_of_mem l hx)
    have h2s : ∀ x ∈ ls, strContains x.raw "run_number" = false →
        hasKey x.parsed "runtime" = true →
        (alookup x.parsed "timestamp").isSome ∧ (alookup x.parsed "event").isSome :=
      fun x hx => h2 x (List.mem_cons_of_mem l hx)
    simp only [read_lines]
    by_cases hm : strContains l.raw "run_number" = true
    · rw [if_pos hm]
      obtain ⟨v, hv⟩ := Option.isSome_iff_exists.mp (h1 l (List.mem_cons_self l ls) hm)
      rw [hv]
      show read_lines ls (some v) = _
      rw [read_lines_eq ls (some v) h1s h2s]
      have he : event_lines (l :: ls) = event_lines ls := by
        unfold event_lines
        rw [List.filter_cons]
        simp [hm]
      have hr : rn_after (l :: ls) rn = rn_after ls (some v) := by
        unfold rn_after
        simp [hm, hv]
      rw [he, hr]
    · have hm' : strContains l.raw "run_number" = false := by
        revert hm; cases strContains l.raw "run_number" <;> simp
      rw [if_neg hm]
      have he0 : rn_after (l :: ls) rn = rn_after ls rn := by
        unfold rn_after
        simp [hm']
      by_cases hk : hasKey l.parsed "runtime" = true
      · obtain ⟨hts, hev⟩ := h2 l (List.mem_cons_self l ls) hm' hk
        obtain ⟨ts, hts'⟩ := Option.isSome_iff_exists.mp hts
        obtain ⟨ev, hev'⟩ := Option.isSome_iff_exists.mp hev
        rw [if_pos hk, hts', hev', read_lines_eq ls rn h1s h2s]
        have he : event_lines (l :: ls) = l :: event_lines ls := by
          unfold event_lines
          rw [List.filter_cons]
          simp [hm', hk]
        rw [he, he0]
        simp [line_to_content, hts', hev']
      · have hk' : hasKey l.parsed "runtime" = false := by
          revert hk; cases hasKey l.parsed "runtime" <;> simp
        rw [if_neg hk, read_lines_eq ls rn h1s h2s]
        have he : event_lines (l :: ls) = event_lines ls := by
          unfold event_lines
          rw [List.filter_cons]
          simp [hm', hk']
        rw [he, he0]

/-- A well-formed event whose task body does not parse to a mapping is
skipped by the loop body (`continue`): no rows, no error. -/
theorem process_event_not_retained (safeLoad : String → YVal)
    (dumps : List (String × JVal) → String) (startOf : JVal → JVal → String)
    (logs : List String) (num : Nat) (t : Content)
    (hwf : wf_event safeLoad t = true) (hr : retained safeLoad t = false) :
    process_event safeLoad dumps startOf logs num t = .ok none := by
  rw [wf_event, Bool.and_eq_true] at hwf
  obtain ⟨ha, _⟩ := hwf
  cases htask : alookup t.json "task" with
  | none => rw [htask] at ha; simp at ha
  | some tv =>
    rw [htask] at ha
    cases tv with
    | i v => simp at ha
    | f v => simp at ha
    | b v => simp at ha
    | null => simp at ha
    | arr v => simp at ha
    | obj v => simp at ha
    | s tstr =>
    replace ha : (split_first tstr).2.isSome = true := ha
    obtain ⟨tb1, hsp2⟩ := Option.isSome_iff_exists.mp ha
    obtain ⟨tb0, os, hsp0⟩ : ∃ a b, split_first tstr = (a, b) :=
      ⟨(split_first tstr).1, (split_first tstr).2, Prod.mk.eta.symm⟩
    rw [hsp0] at hsp2
    simp at hsp2
    subst hsp2
    unfold retained at hr
    rw [htask] at hr
    simp only [hsp0] at hr
    cases hy : safeLoad (str_strip (str_remove tb1 '>')) with
    | mapping m => rw [hy] at hr; simp at hr
    | value v =>
      unfold process_event
      rw [htask]
      simp only [hsp0, hy]

/-- A well-formed retained event produces exactly its `row_triple_of`
rows. -/
theorem process_event_retained (safeLoad : String → YVal)
    (dumps : List (String × JVal) → String) (startOf : JVal → JVal → String)
    (logs : List String) (num : Nat) (t : Content)
    (hwf : wf_event safeLoad t = true) (hr : retained safeLoad t = true) :
    process_event safeLoad dumps startOf logs num t =
      .ok (some (row_triple_of safeLoad dumps startOf logs num t)) := by
  rw [wf_event, Bool.and_eq_true] at hwf
  obtain ⟨ha, hb⟩ := hwf
  cases htask : alookup t.json "task" with
  | none => rw [htask] at ha; simp at ha
  | some tv =>
    rw [htask] at ha
    cases tv with
    | i v => simp at ha
    | f v => simp at ha
    | b v => simp at ha
    | null => simp at ha
    | arr v => simp at ha
    | obj v => simp at ha
    | s tstr =>
    replace ha : (split_first tstr).2.isSome = true := ha
    obtain ⟨tb1, hsp2⟩ := Option.isSome_iff_exists.mp ha
    obtain ⟨tb0, os, hsp0⟩ : ∃ a b, split_first tstr = (a, b) :=
      ⟨(split_first tstr).1, (split_first tstr).2, Prod.mk.eta.symm⟩
    rw [hsp0] at hsp2
    simp at hsp2
    subst hsp2
    rw [hr] at hb
    simp only [Bool.not_true, Bool.false_or] at hb
    obtain ⟨dur, hd⟩ := Option.isSome_iff_exists.mp hb
    cases hy : safeLoad (str_strip (str_remove tb1 '>')) with
    | value v =>
      unfold retained at hr
      rw [htask] at hr
      simp only [hsp0, hy] at hr
      simp at hr
    | mapping m =>
      have hpe : ∃ x, process_event safeLoad dumps startOf logs num t = .ok (some x) := by
        unfold process_event
        rw [htask]
        simp only [hsp0, hy, hd]
        exact ⟨_, rfl⟩
      obtain ⟨x, hx⟩ := hpe
      rw [hx]
      unfold row_triple_of
      rw [hx]

/-- The `fill_rows` loop, on well-formed events, produces exactly the
`spec_rows` triples, split into the three projections. -/
theorem fill_rows_go_eq (safeLoad : String → YVal) (dumps : List (String × JVal) → String)
    (startOf : JVal → JVal → String) (node_logs : List String) :
    ∀ (num : Nat) (content : List Content),
    (∀ t ∈ content, wf_event safeLoad t = true) →
    fill_rows_go safeLoad dumps startOf node_logs num content =
      .ok ((spec_rows safeLoad dumps startOf node_logs num content).map (fun p => p.1),
           (spec_rows safeLoad dumps startOf node_logs num content).map (fun p => p.2.1),
           (spec_rows safeLoad dumps startOf node_logs num content).map (fun p => p.2.2))
  | _, [], _ => rfl
  | num, t :: rest, h => by
    have ht := h t (List.mem_cons_self t rest)
    have hs : ∀ x ∈ rest, wf_event safeLoad x = true :=
      fun x hx => h x (List.mem_cons_of_mem t hx)
    unfold fill_rows_go spec_rows
    cases hr : retained safeLoad t with
    | false =>
      rw [process_event_not_retained safeLoad dumps startOf node_logs num t ht hr]
      show fill_rows_go safeLoad dumps startOf node_logs (num + 1) rest = _
      rw [fill_rows_go_eq safeLoad dumps startOf node_logs (num + 1) rest hs]
      simp
    | true =>
      rw [process_event_retained safeLoad dumps startOf node_logs num t ht hr]
      show (match fill_rows_go safeLoad dumps startOf node_logs (num + 1) rest with
            | Except.error e => (Except.error e :
                Except PyErr (List GanttRow × List TableRow × List CSVRow))
            | Except.ok (gs, ts, cs) =>
              Except.ok ((row_triple_of safeLoad dumps startOf node_logs num t).1 :: gs,
                   (row_triple_of safeLoad dumps startOf node_logs num t).2.1 :: ts,
                   (row_triple_of safeLoad dumps startOf node_logs num t).2.2 :: cs)) = _
      rw [fill_rows_go_eq safeLoad dumps startOf node_logs (num + 1) rest hs]
      simp

/-- `spec_rows` is the filter-map over the enumerated event list: one
triple per retained event, indexed by its position in the *full*
sequence. -/
theorem spec_rows_eq_filter (safeLoad : String → YVal) (dumps : List (String × JVal) → String)
    (startOf : JVal → JVal → String) (node_logs : List String) :
    ∀ (num : Nat) (content : List Content),
    spec_rows safeLoad dumps startOf node_logs num content =
      ((List.enumFrom num content).filter (fun p => retained safeLoad p.2)).map
        (fun p => row_triple_of safeLoad dumps startOf node_logs p.1 p.2)
  | _, [] => rfl
  | num, t :: rest => by
    show (if retained safeLoad t then _ else _) =
      (((num, t) :: List.enumFrom (num + 1) rest).filter (fun p => retained safeLoad p.2)).map
        (fun p => row_triple_of safeLoad dumps startOf node_logs p.1 p.2)
    rw [List.filter_cons]
    cases hr : retained safeLoad t with
    | false =>
      rw [if_neg (by simp [hr]), spec_rows_eq_filter safeLoad dumps startOf node_logs (num + 1) rest]
      simp [hr]
    | true =>
      rw [if_pos (by simp [hr]), spec_rows_eq_filter safeLoad dumps startOf node_logs (num + 1) rest]
      simp [hr]

/-- Field content of the rows of a retained, well-formed event: the row
id is the payload's explicit `id` value when present and the enumerate
index otherwise; the table row reuses the csv row's id and annotated
type; the timeline label appends `(#id)` to the annotated type. -/
theorem row_triple_of_fields (safeLoad : String → YVal)
    (dumps : List (String × JVal) → String) (startOf : JVal → JVal → String)
    (logs : List String) (num : Nat) (t : Content)
    (hwf : wf_event safeLoad t = true) (hr : retained safeLoad t = true) :
    ((row_triple_of safeLoad dumps startOf logs num t).2.2).num =
      (match alookup t.json "id" with
       | some v => v
       | none => .i num) ∧
    ((row_triple_of safeLoad dumps startOf logs num t).2.1).id =
      ((row_triple_of safeLoad dumps startOf logs num t).2.2).num ∧
    ((row_triple_of safeLoad dumps startOf logs num t).2.1).ty =
      ((row_triple_of safeLoad dumps startOf logs num t).2.2).task_type ∧
    ((row_triple_of safeLoad dumps startOf logs num t).1).task =
      ((row_triple_of safeLoad dumps startOf logs num t).2.2).task_type ++
        ("(#" ++ pyStr ((row_triple_of safeLoad dumps startOf logs num t).2.2).num ++ ")") := by
  rw [wf_event, Bool.and_eq_true] at hwf
  obtain ⟨ha, hb⟩ := hwf
  cases htask : alookup t.json "task" with
  | none => rw [htask] at ha; simp at ha
  | some tv =>
    rw [htask] at ha
    cases tv with
    | i v => simp at ha
    | f v => simp at ha
    | b v => simp at ha
    | null => simp at ha
    | arr v => simp at ha
    | obj v => simp at ha
    | s tstr =>
    replace ha : (split_first tstr).2.isSome = true := ha
    obtain ⟨tb1, hsp2⟩ := Option.isSome_iff_exists.mp ha
    obtain ⟨tb0, os, hsp0⟩ : ∃ a b, split_first tstr = (a, b) :=
      ⟨(split_first tstr).1, (split_first tstr).2, Prod.mk.eta.symm⟩
    rw [hsp0] at hsp2
    simp at hsp2
    subst hsp2
    rw [hr] at hb
    simp only [Bool.not_true, Bool.false_or] at hb
    obtain ⟨dur, hd⟩ := Option.isSome_iff_exists.mp hb
    cases hy : safeLoad (str_strip (str_remove tb1 '>')) with
    | value v =>
      unfold retained at hr
      rw [htask] at hr
      simp only [hsp0, hy] at hr
      simp at hr
    | mapping m =>
      unfold row_triple_of process_event
      rw [htask]
      simp only [hsp0, hy, hd]
      simp

/-- With no marker line at all, the run-number local stays unbound. -/
theorem rn_after_no_marker : ∀ (content : List Line) (rn : Option JVal),
    (∀ l ∈ content, strContains l.raw "run_number" = false) →
    rn_after content rn = rn
  | [], _, _ => rfl
  | l :: ls, rn, h0 => by
    have hml := h0 l (List.mem_cons_self l ls)
    have hs : ∀ x ∈ ls, strContains x.raw "run_number" = false :=
      fun x hx => h0 x (List.mem_cons_of_mem l hx)
    unfold rn_after
    simp only [List.foldl_cons, hml, Bool.false_eq_true, if_false]
    exact rn_after_no_marker ls rn hs

/-! ## Claim theorems -/

/-- Claim C8 (confirmed): the node-involvement annotation appended to the
task type by `fill_rows` (analysis.py 273-274) is no suffix for
involvement 0, `(1 node)` for involvement 1, and `(n nodes)` for
involvement n > 1.  The involvement count is a `count_log_occurrences`
result and hence never negative. -/
theorem annotate_task_type_pluralization (t : String) (n : Nat) :
    (n = 0 → annotate_task_type t n = t) ∧
    (n = 1 → annotate_task_type t n = t ++ "(1 node)") ∧
    (1 < n → annotate_task_type t n = t ++ "(" ++ toString n ++ " nodes)") := by
  refine ⟨fun h => ?_, fun h => ?_, fun h => ?_⟩
  · subst h; rfl
  · subst h
    show (if (1 : Nat) ≠ 0 then _ else _) = _
    rw [if_pos (by omega : (1 : Nat) ≠ 0)]
    simp only [str_append_assoc]
    rfl
  · have hne : n ≠ 0 := by omega
    show (if n ≠ 0 then _ else _) = _
    rw [if_pos hne, if_pos h]
    rfl

/-- Witness for C8 at involvements 0, 1 and 2. -/
theorem annotate_task_type_pluralization_witness :
    annotate_task_type "Transfer" 0 = "Transfer" ∧
    annotate_task_type "Transfer" 1 = "Transfer(1 node)" ∧
    annotate_task_type "Transfer" 2 = "Transfer(" ++ toString 2 ++ " nodes)" :=
  ⟨(annotate_task_type_pluralization "Transfer" 0).1 rfl,
   (annotate_task_type_pluralization "Transfer" 1).2.1 rfl,
   (annotate_task_type_pluralization "Transfer" 2).2.2 (by omega)⟩

/-- Claim C6, counterexample: `generate_statistics` on an empty
`CompactRow` list does **not** fail — it returns the empty aggregate list
normally (the `groupby` loop body never runs). -/
theorem generate_statistics_empty_counterexample :
    generate_statistics ⟨[], [], []⟩ = .ok [] := rfl

/-- Claim C6 (amended): given an empty `CompactRow` list,
`generate_statistics` returns normally with the empty aggregate list —
it does not error. -/
theorem generate_statistics_empty (fr : FilledRows) (h : fr.csv_rows = []) :
    generate_statistics fr = .ok [] := by
  unfold generate_statistics
  rw [h]
  rfl

/-- Witness for the amended C6 on a `filled_rows` with empty csv rows
but non-empty chart and table projections. -/
theorem generate_statistics_empty_witness :
    generate_statistics ⟨[⟨"t", "", .null, ""⟩], [], [⟨.null, "", .null, ""⟩]⟩ = .ok [] :=
  generate_statistics_empty ⟨[⟨"t", "", .null, ""⟩], [], [⟨.null, "", .null, ""⟩]⟩ rfl

/-- Claim C9 (confirmed): for the single-element duration group `[5]`,
`generate_statistics` computes min = max = mean = median = p95 = 5 and
count = 1, with a squared standard deviation (`data.std()` squared,
stored as `stdev_sq`) of 0 — so the standard deviation itself is
`Real.sqrt 0 = 0`. -/
theorem generate_statistics_singleton_group :
    generate_statistics ⟨[], [⟨.null, "Transfer", .f 5, 0⟩], []⟩ =
      .ok [⟨"Transfer", [5], 5, 5, 5, 5, 5, 0, 1⟩] ∧
    Real.sqrt ((0 : ℚ) : ℝ) = 0 := by
  constructor
  · norm_num [generate_statistics, stable_sort, insert_sorted, group_runs, stats_of_groups,
      stat_of_group, duration_rats, toNum, np_mean, np_median, np_percentile, np_var, qsum,
      qmin, qmax, qsorted, Rat.floor]
  · norm_num [Real.sqrt_zero]

/-- Claim C4 (code bug): `write_csv` writes the three-column header
`Id,Type,Duration` but then passes each whole `CSVRow` named tuple to
`csv_writer.writerow`, so every data row carries **four** fields — the
`nodes_involved` value is *not* omitted, contradicting the header and the
spec.  Evaluated at the failing input `CSVRow(0, "Transfer", 5, 2)`. -/
theorem write_csv_row_has_four_fields :
    write_csv_records ⟨[], [⟨.i 0, "Transfer", .f 5, 2⟩], []⟩ =
      [["Id", "Type", "Duration"], ["0", "Transfer", "5", "2"]] ∧
    (csv_record ⟨.i 0, "Transfer", .f 5, 2⟩).length ≠
      (["Id", "Type", "Duration"] : List String).length := by
  constructor
  · rfl
  · decide

/-- Claim C10 (confirmed): when `filter_report` returns an empty list for
a non-empty report, `post_report` hits `json_list_to_md_table`'s
unconditional `data[0].keys()` and raises IndexError instead of posting a
notification (the HTTP POST comes after the table is built, so it is
never reached). -/
theorem post_report_empty_filter_index_error (fmt : String → Option String)
    (matchF : String → Bool) (report : List (List (String × String))) (logfile : String)
    (_hne : report ≠ []) (hflt : filter_report matchF report = .ok []) :
    post_report fmt matchF report logfile = .error .indexError := by
  unfold post_report
  rw [hflt]
  rfl

/-- Witness for C10: a one-group report whose name matches nothing. -/
theorem post_report_empty_filter_index_error_witness :
    post_report (fun _ => none) (fun _ => false) [[("name", "EchoNode")]] "scenario.log" =
      .error .indexError :=
  post_report_empty_filter_index_error (fun _ => none) (fun _ => false)
    [[("name", "EchoNode")]] "scenario.log" (by simp) rfl

/-- Claim C2, counterexample: on a log whose lines never contain a
`run_number` marker, `read_raw_content` does **not** return normally —
the final `str(run_number)` reads a never-assigned local and raises
`UnboundLocalError`. -/
theorem read_raw_content_no_marker_counterexample :
    read_raw_content [⟨"ev1", [("runtime", .f 5), ("timestamp", .s "t"), ("event", .s "e")]⟩] =
      .error (.unboundLocal "run_number") := rfl

/-- Claim C2 (amended): when no line of the log contains a `run_number`
marker, `read_raw_content` does not return a value at all: the final
`str(run_number)` reads the never-assigned local and raises
`UnboundLocalError`, and `main` propagates that error — the caller never
receives an empty run identifier. -/
theorem read_raw_content_no_marker_unbound_local
    (safeLoad : String → YVal) (dumps : List (String × JVal) → String)
    (startOf : JVal → JVal → String) (fmt : String → Option String)
    (matchF : String → Bool) (node_logs : List String) (logfile : String)
    (content : List Line)
    (h0 : ∀ l ∈ content, strContains l.raw "run_number" = false)
    (h2 : ∀ l ∈ content, strContains l.raw "run_number" = false →
      hasKey l.parsed "runtime" = true →
      (alookup l.parsed "timestamp").isSome ∧ (alookup l.parsed "event").isSome) :
    read_raw_content content = .error (.unboundLocal "run_number") ∧
    main_run safeLoad dumps startOf fmt matchF content node_logs logfile =
      .error (.unboundLocal "run_number") := by
  have h1 : ∀ l ∈ content, strContains l.raw "run_number" = true →
      (alookup l.parsed "run_number").isSome := by
    intro l hl hm
    rw [h0 l hl] at hm
    cases hm
  have hread : read_raw_content content = .error (.unboundLocal "run_number") := by
    unfold read_raw_content
    rw [read_lines_eq content none h1 h2, rn_after_no_marker content none h0]
  refine ⟨hread, ?_⟩
  unfold main_run
  rw [hread]

/-- Witness for the amended C2: a one-line log with no marker. -/
theorem read_raw_content_no_marker_unbound_local_witness :
    read_raw_content [⟨"plain status line", [("msg", .s "hello")]⟩] =
      .error (.unboundLocal "run_number") ∧
    main_run (fun _ => .mapping []) (fun _ => "") (fun _ _ => "") (fun _ => none)
      (fun _ => false) [⟨"plain status line", [("msg", .s "hello")]⟩] [] "scenario.log" =
      .error (.unboundLocal "run_number") :=
  read_raw_content_no_marker_unbound_local (fun _ => .mapping []) (fun _ => "")
    (fun _ _ => "") (fun _ => none) (fun _ => false) [] "scenario.log"
    [⟨"plain status line", [("msg", .s "hello")]⟩] (by decide) (by decide)

/-- Claim C5, counterexample: a line whose **parsed payload lacks** the
`run_number` key but whose raw text contains the substring `run_number`
*is* consumed as the marker — the marker branch fires on the substring
test and its key lookup raises KeyError — refuting "lines whose payload
does not contain that key are never consumed as the marker". -/
theorem read_raw_content_substring_counterexample :
    hasKey [("runtime", JVal.f 1), ("timestamp", JVal.s "t"), ("event", JVal.s "e")]
      "run_number" = false ∧
    read_raw_content
      [⟨"note run_number here", [("runtime", .f 1), ("timestamp", .s "t"), ("event", .s "e")]⟩] =
      .error (.keyError "run_number") :=
  ⟨rfl, rfl⟩

/-- Claim C5 (amended): a line is treated as metadata exactly when its
**raw text** contains the substring `run_number` (not when its parsed
payload has the key).  Under that criterion the reader behaves as the
claim describes: every marker line is excluded from the event sequence,
the run identifier is the stringified `run_number` value left by the
last marker line, and the events are exactly the non-marker lines whose
payload has a `runtime` key, sorted by timestamp. -/
theorem read_raw_content_marker_by_substring (content : List Line) (v : JVal)
    (h1 : ∀ l ∈ content, strContains l.raw "run_number" = true →
      (alookup l.parsed "run_number").isSome)
    (h2 : ∀ l ∈ content, strContains l.raw "run_number" = false →
      hasKey l.parsed "runtime" = true →
      (alookup l.parsed "timestamp").isSome ∧ (alookup l.parsed "event").isSome)
    (hv : rn_after content none = some v) :
    read_raw_content content =
      .ok (stable_sort (fun a b => jlt a.timestamp b.timestamp)
        ((event_lines content).map line_to_content), pyStr v) := by
  unfold read_raw_content
  rw [read_lines_eq content none h1 h2, hv]

/-- Witness for the amended C5: a marker line plus one event line. -/
theorem read_raw_content_marker_by_substring_witness :
    read_raw_content
      [⟨"run_number 7", [("run_number", .i 7)]⟩,
       ⟨"ev", [("runtime", .f 1), ("timestamp", .s "t1"), ("event", .s "started")]⟩] =
      .ok (stable_sort (fun a b => jlt a.timestamp b.timestamp)
        ((event_lines
          [⟨"run_number 7", [("run_number", .i 7)]⟩,
           ⟨"ev", [("runtime", .f 1), ("timestamp", .s "t1"), ("event", .s "started")]⟩]).map
          line_to_content), pyStr (.i 7)) :=
  read_raw_content_marker_by_substring
    [⟨"run_number 7", [("run_number", .i 7)]⟩,
     ⟨"ev", [("runtime", .f 1), ("timestamp", .s "t1"), ("event", .s "started")]⟩]
    (.i 7) (by decide) (by decide) rfl

/-- Claim C7 (confirmed): on well-formed events, `fill_rows` drops
exactly the events whose parsed task description is not a mapping, and
every mapping-parsing event contributes its row to all three projections
(timeline, table, csv) — the output is precisely the filter of the
enumerated input on `retained`, mapped through `row_triple_of`. -/
theorem fill_rows_skip_rule (safeLoad : String → YVal)
    (dumps : List (String × JVal) → String) (startOf : JVal → JVal → String)
    (content : List Content) (node_logs : List String)
    (h : content.all (wf_event safeLoad) = true) :
    fill_rows safeLoad dumps startOf content node_logs = .ok
      ⟨((List.enumFrom 0 content).filter (fun p => retained safeLoad p.2)).map
          (fun p => (row_triple_of safeLoad dumps startOf node_logs p.1 p.2).1),
       ((List.enumFrom 0 content).filter (fun p => retained safeLoad p.2)).map
          (fun p => (row_triple_of safeLoad dumps startOf node_logs p.1 p.2).2.2),
       ((List.enumFrom 0 content).filter (fun p => retained safeLoad p.2)).map
          (fun p => (row_triple_of safeLoad dumps startOf node_logs p.1 p.2).2.1)⟩ := by
  have h' : ∀ x ∈ content, wf_event safeLoad x = true :=
    fun x hx => List.all_eq_true.mp h x hx
  unfold fill_rows
  rw [fill_rows_go_eq safeLoad dumps startOf node_logs 0 content h',
      spec_rows_eq_filter safeLoad dumps startOf node_logs 0 content]
  simp [List.map_map, Function.comp]

/-- Witness for C7: a wait task (scalar body) followed by a transfer task
(mapping body) — the wait task is absent from all three projections, the
transfer task present in all three. -/
theorem fill_rows_skip_rule_witness :
    fill_rows (fun s => if s = "a" then .mapping [] else .value .null)
      (fun _ => "") (fun _ _ => "")
      [⟨.s "t0", .s "e", [("task", .s "<Wait: w>"), ("runtime", .f 1)]⟩,
       ⟨.s "t1", .s "e", [("task", .s "<T: a>"), ("runtime", .f 2)]⟩] [] = .ok
      ⟨((List.enumFrom 0
          [⟨.s "t0", .s "e", [("task", .s "<Wait: w>"), ("runtime", .f 1)]⟩,
           ⟨.s "t1", .s "e", [("task", .s "<T: a>"), ("runtime", .f 2)]⟩]).filter
          (fun p => retained (fun s => if s = "a" then .mapping [] else .value .null) p.2)).map
          (fun p => (row_triple_of (fun s => if s = "a" then .mapping [] else .value .null)
            (fun _ => "") (fun _ _ => "") [] p.1 p.2).1),
       ((List.enumFrom 0
          [⟨.s "t0", .s "e", [("task", .s "<Wait: w>"), ("runtime", .f 1)]⟩,
           ⟨.s "t1", .s "e", [("task", .s "<T: a>"), ("runtime", .f 2)]⟩]).filter
          (fun p => retained (fun s => if s = "a" then .mapping [] else .value .null) p.2)).map
          (fun p => (row_triple_of (fun s => if s = "a" then .mapping [] else .value .null)
            (fun _ => "") (fun _ _ => "") [] p.1 p.2).2.2),
       ((List.enumFrom 0
          [⟨.s "t0", .s "e", [("task", .s "<Wait: w>"), ("runtime", .f 1)]⟩,
           ⟨.s "t1", .s "e", [("task", .s "<T: a>"), ("runtime", .f 2)]⟩]).filter
          (fun p => retained (fun s => if s = "a" then .mapping [] else .value .null) p.2)).map
          (fun p => (row_triple_of (fun s => if s = "a" then .mapping [] else .value .null)
            (fun _ => "") (fun _ _ => "") [] p.1 p.2).2.1)⟩ :=
  fill_rows_skip_rule (fun s => if s = "a" then .mapping [] else .value .null)
    (fun _ => "") (fun _ _ => "")
    [⟨.s "t0", .s "e", [("task", .s "<Wait: w>"), ("runtime", .f 1)]⟩,
     ⟨.s "t1", .s "e", [("task", .s "<T: a>"), ("runtime", .f 2)]⟩] [] rfl

/-- Claim C1, counterexample: in a log whose first event is a skipped
wait task and whose second event is retained without an explicit `id`
field, the retained event sits at position 0 of the retained-event
sequence but its row id is 1 — `enumerate` counts the *full* input
sequence, skipped events included. -/
theorem fill_rows_default_id_counterexample :
    (fill_rows (fun s => if s = "w" then .value .null else .mapping [])
      (fun _ => "") (fun _ _ => "")
      [⟨.s "t0", .s "e", [("task", .s "<WaitTask: w>"), ("runtime", .f 1)]⟩,
       ⟨.s "t1", .s "e", [("task", .s "<T: a>"), ("runtime", .f 2)]⟩] []) =
      .ok ⟨[⟨"T(#1)", "", .s "t1", ""⟩],
           [⟨.i 1, "T", .f 2, 0⟩],
           [⟨.i 1, "T", .f 2, ""⟩]⟩ ∧
    JVal.i 1 ≠ JVal.i 0 :=
  ⟨rfl, by simp⟩

/-- Claim C1 (amended): for a retained, well-formed event at position `i`
of the **full** input sequence (skipped events advance the counter too),
the row id of its CompactRow is the payload's explicit `id` value when
present and `i` otherwise; the DisplayRow uses the same id and the
TimelineRow label carries it as the `(#id)` suffix. -/
theorem fill_rows_row_id (safeLoad : String → YVal)
    (dumps : List (String × JVal) → String) (startOf : JVal → JVal → String)
    (content : List Content) (node_logs : List String)
    (h : content.all (wf_event safeLoad) = true)
    (i : Nat) (e : Content) (he : content.get? i = some e)
    (hr : retained safeLoad e = true) :
    ∃ fr, fill_rows safeLoad dumps startOf content node_logs = .ok fr ∧
      (row_triple_of safeLoad dumps startOf node_logs i e).2.2 ∈ fr.csv_rows ∧
      (row_triple_of safeLoad dumps startOf node_logs i e).2.1 ∈ fr.table_rows ∧
      (row_triple_of safeLoad dumps startOf node_logs i e).1 ∈ fr.gantt_rows ∧
      ((row_triple_of safeLoad dumps startOf node_logs i e).2.2).num =
        (match alookup e.json "id" with
         | some v => v
         | none => .i i) ∧
      ((row_triple_of safeLoad dumps startOf node_logs i e).2.1).id =
        ((row_triple_of safeLoad dumps startOf node_logs i e).2.2).num ∧
      ((row_triple_of safeLoad dumps startOf node_logs i e).1).task =
        ((row_triple_of safeLoad dumps startOf node_logs i e).2.2).task_type ++
          ("(#" ++ pyStr ((row_triple_of safeLoad dumps startOf node_logs i e).2.2).num ++ ")") := by
  have h' : ∀ x ∈ content, wf_event safeLoad x = true :=
    fun x hx => List.all_eq_true.mp h x hx
  have hwf := h' e (List.get?_mem he)
  have hmem : (i, e) ∈ (List.enumFrom 0 content).filter
      (fun p => retained safeLoad p.2) := by
    apply List.mem_filter.mpr
    refine ⟨?_, by simpa using hr⟩
    have hg : (List.enumFrom 0 content).get? i = some (0 + i, e) := by
      rw [List.get?_eq_getElem?, List.getElem?_enumFrom, ← List.get?_eq_getElem?, he]
      rfl
    simpa using List.get?_mem hg
  unfold fill_rows
  rw [fill_rows_go_eq safeLoad dumps startOf node_logs 0 content h',
      spec_rows_eq_filter safeLoad dumps startOf node_logs 0 content]
  obtain ⟨f1, f2, f3, f4⟩ :=
    row_triple_of_fields safeLoad dumps startOf node_logs i e hwf hr
  refine ⟨_, rfl, ?_, ?_, ?_, f1, f2, f4⟩
  · simpa using
      List.mem_map_of_mem
        (fun p => (row_triple_of safeLoad dumps startOf node_logs p.1 p.2).2.2) hmem
  · simpa using
      List.mem_map_of_mem
        (fun p => (row_triple_of safeLoad dumps startOf node_logs p.1 p.2).2.1) hmem
  · simpa using
      List.mem_map_of_mem
        (fun p => (row_triple_of safeLoad dumps startOf node_logs p.1 p.2).1) hmem

/-- Witness for the amended C1: the retained event at full-sequence
position 1 (after a skipped wait task) without an explicit id. -/
theorem fill_rows_row_id_witness :
    ∃ fr, fill_rows (fun s => if s = "v" then .value .null else .mapping [])
        (fun _ => "") (fun _ _ => "")
        [⟨.s "t0", .s "e", [("task", .s "<Wait2: v>"), ("runtime", .f 1)]⟩,
         ⟨.s "t1", .s "e", [("task", .s "<U: b>"), ("runtime", .f 2)]⟩] [] = .ok fr ∧
      (row_triple_of (fun s => if s = "v" then .value .null else .mapping [])
        (fun _ => "") (fun _ _ => "") [] 1
        ⟨.s "t1", .s "e", [("task", .s "<U: b>"), ("runtime", .f 2)]⟩).2.2 ∈ fr.csv_rows ∧
      (row_triple_of (fun s => if s = "v" then .value .null else .mapping [])
        (fun _ => "") (fun _ _ => "") [] 1
        ⟨.s "t1", .s "e", [("task", .s "<U: b>"), ("runtime", .f 2)]⟩).2.1 ∈ fr.table_rows ∧
      (row_triple_of (fun s => if s = "v" then .value .null else .mapping [])
        (fun _ => "") (fun _ _ => "") [] 1
        ⟨.s "t1", .s "e", [("task", .s "<U: b>"), ("runtime", .f 2)]⟩).1 ∈ fr.gantt_rows ∧
      ((row_triple_of (fun s => if s = "v" then .value .null else .mapping [])
        (fun _ => "") (fun _ _ => "") [] 1
        ⟨.s "t1", .s "e", [("task", .s "<U: b>"), ("runtime", .f 2)]⟩).2.2).num =
        (match alookup [("task", JVal.s "<U: b>"), ("runtime", JVal.f 2)] "id" with
         | some v => v
         | none => .i 1) ∧
      ((row_triple_of (fun s => if s = "v" then .value .null else .mapping [])
        (fun _ => "") (fun _ _ => "") [] 1
        ⟨.s "t1", .s "e", [("task", .s "<U: b>"), ("runtime", .f 2)]⟩).2.1).id =
        ((row_triple_of (fun s => if s = "v" then .value .null else .mapping [])
        (fun _ => "") (fun _ _ => "") [] 1
        ⟨.s "t1", .s "e", [("task", .s "<U: b>"), ("runtime", .f 2)]⟩).2.2).num ∧
      ((row_triple_of (fun s => if s = "v" then .value .null else .mapping [])
        (fun _ => "") (fun _ _ => "") [] 1
        ⟨.s "t1", .s "e", [("task", .s "<U: b>"), ("runtime", .f 2)]⟩).1).task =
        ((row_triple_of (fun s => if s = "v" then .value .null else .mapping [])
        (fun _ => "") (fun _ _ => "") [] 1
        ⟨.s "t1", .s "e", [("task", .s "<U: b>"), ("runtime", .f 2)]⟩).2.2).task_type ++
          ("(#" ++ pyStr (((row_triple_of (fun s => if s = "v" then .value .null else .mapping [])
        (fun _ => "") (fun _ _ => "") [] 1
        ⟨.s "t1", .s "e", [("task", .s "<U: b>"), ("runtime", .f 2)]⟩).2.2).num) ++ ")") :=
  fill_rows_row_id (fun s => if s = "v" then .value .null else .mapping [])
    (fun _ => "") (fun _ _ => "")
    [⟨.s "t0", .s "e", [("task", .s "<Wait2: v>"), ("runtime", .f 1)]⟩,
     ⟨.s "t1", .s "e", [("task", .s "<U: b>"), ("runtime", .f 2)]⟩] [] rfl 1
    ⟨.s "t1", .s "e", [("task", .s "<U: b>"), ("runtime", .f 2)]⟩ rfl rfl

/-- Claim C3 (confirmed): once a run passes the empty-run short-circuit
(at least one retained event and a non-empty run identifier) and the rows
are reconstructed, `main` calls `parse_filled_rows` with three arguments
against its four-parameter signature, so the pipeline stops with a
TypeError at the metrics step — the statistics, gantt, CSV and
notification outputs are never produced (the error short-circuits all of
them). -/
theorem main_metrics_arity_type_error (safeLoad : String → YVal)
    (dumps : List (String × JVal) → String) (startOf : JVal → JVal → String)
    (fmt : String → Option String) (matchF : String → Bool)
    (lines : List Line) (node_logs : List String) (logfile : String)
    (stripped : List Content) (rn : String) (fr : FilledRows)
    (hread : read_raw_content lines = .ok (stripped, rn))
    (hne : stripped ≠ []) (hrn : rn ≠ "")
    (hfill : fill_rows safeLoad dumps startOf stripped node_logs = .ok fr) :
    main_run safeLoad dumps startOf fmt matchF lines node_logs logfile =
      .error (.typeError "parse_filled_rows") := by
  unfold main_run
  rw [hread]
  show main_after_read safeLoad dumps startOf fmt matchF node_logs logfile stripped rn =
    .error (.typeError "parse_filled_rows")
  unfold main_after_read
  rw [if_neg (by simp [hne, hrn])]
  rw [hfill]
  rfl

/-- Witness for C3: a two-line log (marker plus one retained event). -/
theorem main_metrics_arity_type_error_witness :
    main_run (fun _ => .mapping []) (fun _ => "") (fun _ _ => "") (fun _ => none)
      (fun _ => false)
      [⟨"rn run_number", [("run_number", .i 1)]⟩,
       ⟨"ev", [("runtime", .f 5), ("timestamp", .s "t"), ("event", .s "e"),
               ("task", .s "<T: a>")]⟩] [] "scenario.log" =
      .error (.typeError "parse_filled_rows") :=
  main_metrics_arity_type_error (fun _ => .mapping []) (fun _ => "") (fun _ _ => "")
    (fun _ => none) (fun _ => false)
    [⟨"rn run_number", [("run_number", .i 1)]⟩,
     ⟨"ev", [("runtime", .f 5), ("timestamp", .s "t"), ("event", .s "e"),
             ("task", .s "<T: a>")]⟩] [] "scenario.log"
    [⟨.s "t", .s "e", [("runtime", .f 5), ("timestamp", .s "t"), ("event", .s "e"),
       ("task", .s "<T: a>")]⟩] "1"
    ⟨[⟨"T(#0)", "", .s "t", ""⟩], [⟨.i 0, "T", .f 5, 0⟩], [⟨.i 0, "T", .f 5, ""⟩]⟩
    rfl (by simp) (by decide) rfl

end RaidenAnalysis
